import Mathlib

/-!
Shallow embedding of the PC Builder compatibility and pricing engine of the
itrepairhub.pk backend (`src/controllers/pcBuilder.controller.js`), together
with a model of the checkout write path (`checkoutBuild`) over the pooled
database handle (`src/config/db.config.js`).

Modelling conventions:
* JavaScript numbers are modelled as `ℚ`; `NaN` is modelled as `none` in
  `Option ℚ` where it can arise (`parseFloat` of a non-numeric string).
  Comparisons against `NaN` are false, as in JavaScript.
* Specification-map values (the parsed `specifications` JSON of a product)
  are scalars or arrays of strings, per the data model: `SpecVal`.
* JavaScript truthiness is modelled explicitly (`specTruthy`, `slotTruthy`,
  `truthyS`, `truthyN`); `undefined` and missing keys are `none` / `.falsy`.
* The validators mutate `errors` / `warnings` arrays by `push`; here each
  validator returns the list of entries it appends, and the dispatcher
  concatenates, preserving order.
-/

namespace PCBuilder

/-- A value in a product's parsed `specifications` JSON object: a scalar
(number or string) or an array of strings, per the catalog data model. -/
inductive SpecVal where
  | num (q : ℚ)
  | str (s : String)
  | list (xs : List String)
deriving DecidableEq, Repr

/-- JavaScript truthiness of a specification value; `none` models a missing
key (`undefined`). `0` and `""` are falsy; every array (even `[]`) is truthy. -/
def specTruthy : Option SpecVal → Bool
  | none => false
  | some (SpecVal.num q) => q != 0
  | some (SpecVal.str s) => s != ""
  | some (SpecVal.list _) => true

/-- The JavaScript `a || b` fallback on specification values: `b` when `a`
is falsy or absent. -/
def specOr (a b : Option SpecVal) : Option SpecVal :=
  if specTruthy a then a else b

/-- JavaScript `x.length > 0`: arrays and strings have a `length`; on numbers
`length` is `undefined` and `undefined > 0` is false. -/
def lengthPos : Option SpecVal → Bool
  | some (SpecVal.list xs) => xs.length != 0
  | some (SpecVal.str s) => s.length != 0
  | _ => false

/-- JavaScript `Array.isArray(c) ? c.includes(v) : false`: membership of a
scalar in an array value; numbers never equal the strings of the array, and
a nested array compares by reference, hence never matches. -/
def specIncludes (container v : Option SpecVal) : Bool :=
  match container, v with
  | some (SpecVal.list xs), some (SpecVal.str s) => xs.contains s
  | _, _ => false

/-- JavaScript strict equality `===` between two specification scalars.
Arrays compare by object identity; two separately parsed arrays are never
strictly equal, so array operands yield `false` here. -/
def jsStrictEq : SpecVal → SpecVal → Bool
  | SpecVal.num a, SpecVal.num b => a == b
  | SpecVal.str a, SpecVal.str b => a == b
  | _, _ => false

/-- Digits taken greedily from the front of a character list. -/
def takeDigits : List Char → List Char × List Char
  | [] => ([], [])
  | c :: cs =>
    if c.isDigit then
      let p := takeDigits cs
      (c :: p.1, p.2)
    else ([], c :: cs)

/-- Numeric value of a digit list. -/
def digitsToNat (ds : List Char) : ℕ :=
  ds.foldl (fun a c => 10 * a + (c.toNat - 48)) 0

/-- Leading-decimal parser modelling JavaScript `parseFloat` on the strings
that occur in specification maps: optional leading spaces, optional sign,
integer digits, optional fractional digits; trailing junk is ignored.
`none` models `NaN` (no leading number). Exponents and special values are
not modelled; no claim depends on them. -/
def parseFloatStr (s : String) : Option ℚ :=
  let cs := s.toList.dropWhile (fun c => c = ' ')
  let sgn : Bool × List Char :=
    match cs with
    | '-' :: t => (true, t)
    | '+' :: t => (false, t)
    | _ => (false, cs)
  let ip := takeDigits sgn.2
  let fp :=
    match ip.2 with
    | '.' :: t => (takeDigits t).1
    | _ => []
  if ip.1 = [] ∧ fp = [] then none
  else
    let mag : ℚ := (digitsToNat ip.1 : ℚ) + (digitsToNat fp : ℚ) / (10 ^ fp.length)
    some (if sgn.1 then -mag else mag)

/-- JavaScript `parseFloat` applied to a specification value (or to the `0`
default of the `|| 0` chains). An array is first converted to its
comma-joined string, of which the leading number is parsed. `none` is `NaN`. -/
def parseFloatSpec : Option SpecVal → Option ℚ
  | some (SpecVal.num q) => some q
  | some (SpecVal.str s) => parseFloatStr s
  | some (SpecVal.list xs) => parseFloatStr (String.intercalate "," xs)
  | none => none

/-- Addition with `NaN` absorption (`none` is `NaN`). -/
def nanAdd (a b : Option ℚ) : Option ℚ :=
  match a, b with
  | some x, some y => some (x + y)
  | _, _ => none

/-- Multiplication of a possibly-`NaN` value by a constant. -/
def nanMul (a : Option ℚ) (c : ℚ) : Option ℚ :=
  a.map (fun x => x * c)

/-- `Math.ceil` of a possibly-`NaN` value. -/
def nanCeilZ (a : Option ℚ) : Option ℤ :=
  a.map (fun q => ⌈q⌉)

/-- JavaScript `<` where either side may be `NaN`: any comparison against
`NaN` is false. -/
def jsLt (a b : Option ℚ) : Bool :=
  match a, b with
  | some x, some y => decide (x < y)
  | _, _ => false

/-- A component reference as submitted in a configuration slot: the `id`
field (absent or a catalog id; `id = 0` is falsy in the `item && item.id`
guards) and the ride-along display `name`. A truthy non-array slot value
without a usable `id` field is modelled by `id := none`. -/
structure Ref where
  id : Option ℕ
  name : Option String := none
deriving DecidableEq, Repr

/-- A configuration slot value: `falsy` covers `null` / `undefined` / other
falsy values, `single` a truthy non-array value, `many` an array whose
elements may themselves be `null` (`none`). -/
inductive SlotVal where
  | falsy
  | single (r : Ref)
  | many (rs : List (Option Ref))
deriving DecidableEq, Repr

/-- JavaScript truthiness of a slot value; arrays are always truthy. -/
def slotTruthy : SlotVal → Bool
  | SlotVal.falsy => false
  | _ => true

/-- `Array.isArray(component) ? component : [component]`. -/
def slotItems : SlotVal → List (Option Ref)
  | SlotVal.falsy => []
  | SlotVal.single r => [some r]
  | SlotVal.many rs => rs

/-- `Array.isArray(component) ? component.length : 1`. -/
def slotCount : SlotVal → ℕ
  | SlotVal.falsy => 1
  | SlotVal.single _ => 1
  | SlotVal.many rs => rs.length

/-- A submitted configuration: the ordered slot-key → slot-value mapping of
the request body's `configuration` object. -/
abbrev Configuration := List (String × SlotVal)

/-- Property read `configuration[key]`; a missing key is `undefined`,
modelled by `.falsy`. -/
def cfgGet (cfg : Configuration) (k : String) : SlotVal :=
  (cfg.lookup k).getD SlotVal.falsy

/-- The resolved catalog record for one product id, as placed in
`productDetailsMap`: only the parsed `specifications` object is consulted by
the validators (the `id`, `category_id` and `category_name` fields of the
JavaScript record are never read by rule checks). -/
structure ProductDetails where
  specifications : List (String × SpecVal)
deriving DecidableEq, Repr

/-- A catalog snapshot: product id → resolved details (absent ids resolve to
nothing, which every check treats as "skip"). -/
abbrev Catalog := ℕ → Option ProductDetails

/-- Specification field read `details.specifications[key]`. -/
def getSpec (d : ProductDetails) (k : String) : Option SpecVal :=
  d.specifications.lookup k

/-- The truthy `id` of a reference, as used by `item && item.id`:
`some n` exactly when the `id` field is present and nonzero. -/
def refIdOk (r : Ref) : Option ℕ :=
  match r.id with
  | some n => if n ≠ 0 then some n else none
  | none => none

/-- `item && item.id && productDetailsMap[item.id]` for one (possibly
`null`) item of a slot array. -/
def itemDetails (catalog : Catalog) : Option Ref → Option ProductDetails
  | some r =>
    match refIdOk r with
    | some n => catalog n
    | none => none
  | none => none

/-- The truthy `id` of a single (non-array) slot value; an array's `.id` is
`undefined`, so arrays yield `none` here. -/
def singleRefId : SlotVal → Option ℕ
  | SlotVal.single r => refIdOk r
  | _ => none

/-- `x && x.id && productDetailsMap[x.id]` for a single-component slot:
the composite of the truthiness guards and the map lookup. -/
def slotDetails (catalog : Catalog) (v : SlotVal) : Option ProductDetails :=
  match singleRefId v with
  | some n => catalog n
  | none => none

/-- The typed view of a rule's parsed `rule_config` JSON blob: every field
any of the seven checkers destructures, each absent (`none`) when the blob
does not supply it (or when `JSON.parse` failed and the blob is `{}`). -/
structure RuleConfig where
  max_quantity : Option ℚ := none
  component_key : Option String := none
  cpu_key : Option String := none
  motherboard_key : Option String := none
  socket_field : Option String := none
  case_key : Option String := none
  form_factor_field : Option String := none
  psu_key : Option String := none
  power_field : Option String := none
  components : Option (List String) := none
  ram_key : Option String := none
  memory_type_field : Option String := none
  storage_key : Option String := none
  interface_field : Option String := none
  validation_logic : Option String := none
  severity : Option String := none
deriving DecidableEq, Repr

/-- An active compatibility rule as returned by the rule store. -/
structure Rule where
  id : ℕ
  rule_type : String
  rule_name : String
  rule_config : RuleConfig
  error_message : String
deriving DecidableEq, Repr

/-- JavaScript truthiness of an optional string rule-config field
(`!x` guards): present and non-empty. -/
def truthyS : Option String → Bool
  | some s => s != ""
  | none => false

/-- JavaScript truthiness of an optional numeric rule-config field:
present and nonzero (`!0` is true, so a `0` field fails the guard). -/
def truthyN : Option ℚ → Bool
  | some q => q != 0
  | none => false

/-- The `message` of a produced violation. Every checker pushes the rule's
`error_message` verbatim except the power-requirement warning, whose message
is the template string interpolating the PSU wattage and the rounded-up
required power; the interpolated numeric payloads are carried explicitly. -/
inductive Message where
  | text (s : String)
  | powerWarning (psuWattage : Option ℚ) (requiredCeil : Option ℤ)
deriving DecidableEq, Repr

/-- One entry of the `errors` or `warnings` array. -/
structure Violation where
  rule_id : ℕ
  rule_name : String
  message : Message
  component_key : String
deriving DecidableEq, Repr

/-- The entry every checker pushes on a violation: the rule's id, name and
error message, plus the implicated slot key. -/
def mkViolation (rule : Rule) (key : String) : Violation :=
  { rule_id := rule.id, rule_name := rule.rule_name,
    message := Message.text rule.error_message, component_key := key }

/-- `validateMaxQuantity` (pcBuilder.controller.js lines 364-380): skipped
unless `max_quantity` and `component_key` are truthy; counts an array slot
by its length and any other truthy slot value as 1; pushes one error when
the count exceeds the maximum. -/
def validateMaxQuantity (rule : Rule) (cfg : Configuration) : List Violation :=
  let rc := rule.rule_config
  if truthyN rc.max_quantity && truthyS rc.component_key then
    let m := rc.max_quantity.getD 0
    let k := rc.component_key.getD ""
    let comp := cfgGet cfg k
    if slotTruthy comp && decide (m < (slotCount comp : ℚ)) then
      [mkViolation rule k]
    else []
  else []

/-- `validateSocketCompatibility` (lines 382-407): both slots must be truthy
single references with truthy ids that resolve; each side's socket is read
under `socket_field` with fallback `socket`; an error cites the motherboard
slot when both sockets are truthy and strictly unequal. -/
def validateSocketCompatibility (rule : Rule) (cfg : Configuration)
    (catalog : Catalog) : List Violation :=
  let rc := rule.rule_config
  if truthyS rc.cpu_key && truthyS rc.motherboard_key && truthyS rc.socket_field then
    let ck := rc.cpu_key.getD ""
    let mk := rc.motherboard_key.getD ""
    let sf := rc.socket_field.getD ""
    match slotDetails catalog (cfgGet cfg ck), slotDetails catalog (cfgGet cfg mk) with
    | some cpuDetails, some moboDetails =>
      let cpuSocket := specOr (getSpec cpuDetails sf) (getSpec cpuDetails "socket")
      let moboSocket := specOr (getSpec moboDetails sf) (getSpec moboDetails "socket")
      if specTruthy cpuSocket && specTruthy moboSocket then
        match cpuSocket, moboSocket with
        | some a, some b => if jsStrictEq a b then [] else [mkViolation rule mk]
        | _, _ => []
      else []
    | _, _ => []
  else []

/-- The motherboard's form factor, read under the configured field name
with fallback `form_factor`. -/
def moboFormFactorOf (fff : String) (d : ProductDetails) : Option SpecVal :=
  specOr (getSpec d fff) (getSpec d "form_factor")

/-- The case's supported form factors, read under the fixed keys
`supported_form_factors` then `form_factors`, defaulting to `[]` — the
configured field name is NOT consulted for the case. -/
def caseFormFactorsOf (d : ProductDetails) : Option SpecVal :=
  specOr (getSpec d "supported_form_factors")
    (specOr (getSpec d "form_factors") (some (SpecVal.list [])))

/-- `validateFormFactor` (lines 409-442): the motherboard's form factor is
read under `form_factor_field` with fallback `form_factor`; the case's list
is read under fixed keys (see `caseFormFactorsOf`). An error citing the
case slot is pushed when the motherboard value is truthy, the case value
has positive length, and membership fails. -/
def validateFormFactor (rule : Rule) (cfg : Configuration)
    (catalog : Catalog) : List Violation :=
  let rc := rule.rule_config
  if truthyS rc.motherboard_key && truthyS rc.case_key && truthyS rc.form_factor_field then
    let mk := rc.motherboard_key.getD ""
    let ck := rc.case_key.getD ""
    let fff := rc.form_factor_field.getD ""
    match slotDetails catalog (cfgGet cfg mk), slotDetails catalog (cfgGet cfg ck) with
    | some moboDetails, some caseDetails =>
      let moboFormFactor := moboFormFactorOf fff moboDetails
      let caseFormFactors := caseFormFactorsOf caseDetails
      if specTruthy moboFormFactor && lengthPos caseFormFactors then
        if specIncludes caseFormFactors moboFormFactor then []
        else [mkViolation rule ck]
      else []
    | _, _ => []
  else []

/-- The keys summed by the power check:
`components || Object.keys(configuration)` (an explicit empty list is
truthy in JavaScript and yields an empty sum). -/
def countedKeys (rule : Rule) (cfg : Configuration) : List String :=
  match rule.rule_config.components with
  | some ks => ks
  | none => cfg.map Prod.fst

/-- The power draw of one resolved component:
`parseFloat(specs[power_field] || specs.tdp || specs.power_consumption || 0)`. -/
def readPowerDraw (pf : String) (det : ProductDetails) : Option ℚ :=
  parseFloatSpec (specOr (getSpec det pf)
    (specOr (getSpec det "tdp")
      (specOr (getSpec det "power_consumption") (some (SpecVal.num 0)))))

/-- The PSU's rated wattage:
`parseFloat(specs[power_field] || specs.wattage || 0)`. -/
def psuRatedWattage (pf : String) (det : ProductDetails) : Option ℚ :=
  parseFloatSpec (specOr (getSpec det pf)
    (specOr (getSpec det "wattage") (some (SpecVal.num 0))))

/-- Contribution of one item of a counted slot: resolved items contribute
their `readPowerDraw`; unresolved or `null` items are skipped (contribute
nothing, modelled as 0). -/
def itemDraw (pf : String) (catalog : Catalog) (item : Option Ref) : Option ℚ :=
  match itemDetails catalog item with
  | some det => readPowerDraw pf det
  | none => some 0

/-- The summed draw over the counted slots, skipping the PSU's own slot and
falsy slots, over every item of each remaining slot. -/
def totalDraw (pf psuKey : String) (keys : List String) (cfg : Configuration)
    (catalog : Catalog) : Option ℚ :=
  keys.foldl (fun acc key =>
    if key = psuKey then acc
    else if slotTruthy (cfgGet cfg key) then
      (slotItems (cfgGet cfg key)).foldl (fun a it => nanAdd a (itemDraw pf catalog it)) acc
    else acc) (some 0)

/-- `validatePowerRequirement` (lines 444-495): skipped unless `psu_key` and
`power_field` are truthy and the PSU slot is a truthy single reference with
a truthy id that resolves. Pushes one hard error when the PSU wattage is
below the total draw, otherwise one warning when it is below total draw
times 1.2; the warning message interpolates the PSU wattage and the ceiling
of the required power. -/
def validatePowerRequirement (rule : Rule) (cfg : Configuration)
    (catalog : Catalog) : List Violation × List Violation :=
  let rc := rule.rule_config
  if truthyS rc.psu_key && truthyS rc.power_field then
    let psuKey := rc.psu_key.getD ""
    let pf := rc.power_field.getD ""
    match slotDetails catalog (cfgGet cfg psuKey) with
    | none => ([], [])
    | some psuDetails =>
      let psuWattage := psuRatedWattage pf psuDetails
      let totalPower := totalDraw pf psuKey (countedKeys rule cfg) cfg catalog
      let requiredPower := nanMul totalPower (1.2 : ℚ)
      if jsLt psuWattage totalPower then ([mkViolation rule psuKey], [])
      else if jsLt psuWattage requiredPower then
        ([], [{ rule_id := rule.id, rule_name := rule.rule_name,
                message := Message.powerWarning psuWattage (nanCeilZ requiredPower),
                component_key := psuKey }])
      else ([], [])
  else ([], [])

/-- The motherboard's supported-memory-type list, read under the fixed keys
`supported_memory_types` then `memory_types`, defaulting to `[]` — the
configured `memory_type_field` is NOT consulted here. -/
def memTypeSupported (moboDetails : ProductDetails) : Option SpecVal :=
  specOr (getSpec moboDetails "supported_memory_types")
    (specOr (getSpec moboDetails "memory_types") (some (SpecVal.list [])))

/-- Whether one RAM item produces a memory-type violation: it resolves, its
type (under `memory_type_field`, else `memory_type`, else `type`) is truthy,
the supported value has positive length, and membership fails. -/
def memTypeItemBad (mtf : String) (supported : Option SpecVal) (catalog : Catalog)
    (item : Option Ref) : Bool :=
  match itemDetails catalog item with
  | none => false
  | some ramDetails =>
    let ramType := specOr (getSpec ramDetails mtf)
      (specOr (getSpec ramDetails "memory_type") (getSpec ramDetails "type"))
    specTruthy ramType && lengthPos supported && !(specIncludes supported ramType)

/-- `validateMemoryType` (lines 497-540): skipped unless the three config
fields are truthy, both slots truthy and the motherboard resolves; each RAM
item is checked individually and each bad item pushes one error citing the
RAM slot key. -/
def validateMemoryType (rule : Rule) (cfg : Configuration)
    (catalog : Catalog) : List Violation :=
  let rc := rule.rule_config
  if truthyS rc.ram_key && truthyS rc.motherboard_key && truthyS rc.memory_type_field then
    let ramKey := rc.ram_key.getD ""
    let mk := rc.motherboard_key.getD ""
    let mtf := rc.memory_type_field.getD ""
    let ram := cfgGet cfg ramKey
    if slotTruthy ram && slotTruthy (cfgGet cfg mk) then
      match slotDetails catalog (cfgGet cfg mk) with
      | none => []
      | some moboDetails =>
        (slotItems ram).filterMap (fun item =>
          if memTypeItemBad mtf (memTypeSupported moboDetails) catalog item then
            some (mkViolation rule ramKey)
          else none)
    else []
  else []

/-- The motherboard's supported-storage-interface list, read under the fixed
keys `supported_storage_interfaces` then `storage_interfaces`, default `[]`. -/
def storageIfaceSupported (moboDetails : ProductDetails) : Option SpecVal :=
  specOr (getSpec moboDetails "supported_storage_interfaces")
    (specOr (getSpec moboDetails "storage_interfaces") (some (SpecVal.list [])))

/-- Whether one storage item produces a storage-interface violation, with
the item chain `interface_field`, else `interface`, else `connection`. -/
def storageItemBad (iff : String) (supported : Option SpecVal) (catalog : Catalog)
    (item : Option Ref) : Bool :=
  match itemDetails catalog item with
  | none => false
  | some storageDetails =>
    let si := specOr (getSpec storageDetails iff)
      (specOr (getSpec storageDetails "interface") (getSpec storageDetails "connection"))
    specTruthy si && lengthPos supported && !(specIncludes supported si)

/-- `validateStorageInterface` (lines 542-585): structurally identical to
`validateMemoryType` over the storage slot and interface fields. -/
def validateStorageInterface (rule : Rule) (cfg : Configuration)
    (catalog : Catalog) : List Violation :=
  let rc := rule.rule_config
  if truthyS rc.storage_key && truthyS rc.motherboard_key && truthyS rc.interface_field then
    let sk := rc.storage_key.getD ""
    let mk := rc.motherboard_key.getD ""
    let iff := rc.interface_field.getD ""
    let storage := cfgGet cfg sk
    if slotTruthy storage && slotTruthy (cfgGet cfg mk) then
      match slotDetails catalog (cfgGet cfg mk) with
      | none => []
      | some moboDetails =>
        (slotItems storage).filterMap (fun item =>
          if storageItemBad iff (storageIfaceSupported moboDetails) catalog item then
            some (mkViolation rule sk)
          else none)
    else []
  else []

/-- `validateCustomRule` (lines 587-596): the body destructures
`validation_logic` and `severity` and contains only an empty placeholder
branch; it never appends to either list. -/
def validateCustomRule (_rule : Rule) (_cfg : Configuration)
    (_catalog : Catalog) : List Violation × List Violation :=
  ([], [])

/-- The dispatch `switch (rule.rule_type)` of `validateConfiguration`
(lines 312-343), applied to the accumulated `(errors, warnings)` pair.
Rule types outside the seven recognized tags fall through the switch and
leave both lists unchanged. -/
def applyRule (cfg : Configuration) (catalog : Catalog)
    (acc : List Violation × List Violation) (rule : Rule) :
    List Violation × List Violation :=
  if rule.rule_type = "max_quantity" then
    (acc.1 ++ validateMaxQuantity rule cfg, acc.2)
  else if rule.rule_type = "socket_compatibility" then
    (acc.1 ++ validateSocketCompatibility rule cfg catalog, acc.2)
  else if rule.rule_type = "form_factor" then
    (acc.1 ++ validateFormFactor rule cfg catalog, acc.2)
  else if rule.rule_type = "power_requirement" then
    let ew := validatePowerRequirement rule cfg catalog
    (acc.1 ++ ew.1, acc.2 ++ ew.2)
  else if rule.rule_type = "memory_type" then
    (acc.1 ++ validateMemoryType rule cfg catalog, acc.2)
  else if rule.rule_type = "storage_interface" then
    (acc.1 ++ validateStorageInterface rule cfg catalog, acc.2)
  else if rule.rule_type = "custom" then
    let ew := validateCustomRule rule cfg catalog
    (acc.1 ++ ew.1, acc.2 ++ ew.2)
  else acc

/-- The `data` payload of a successful validation response. -/
structure ValidationResult where
  valid : Bool
  errors : List Violation
  warnings : List Violation
deriving DecidableEq, Repr

/-- The rule loop of `validateConfiguration`: every active rule is
dispatched in store order over shared `errors` / `warnings` accumulators;
`valid` is `errors.length === 0`. -/
def runRules (rules : List Rule) (cfg : Configuration) (catalog : Catalog) :
    ValidationResult :=
  let ew := rules.foldl (applyRule cfg catalog) ([], [])
  { valid := ew.1.isEmpty, errors := ew.1, warnings := ew.2 }

/-- The request body's `configuration` value before the input guard: absent
(`undefined`), `null`, a primitive, a JSON array, or a JSON object. -/
inductive BodyConfig where
  | absent
  | jnull
  | jbool (b : Bool)
  | jnum (q : ℚ)
  | jstr (s : String)
  | jarr (xs : List SlotVal)
  | jobj (fields : List (String × SlotVal))
deriving DecidableEq, Repr

/-- The guard `!configuration || typeof configuration !== 'object'`
accepts exactly truthy values of `typeof 'object'`: JSON objects AND JSON
arrays (`typeof [] === 'object'`); `null` is of type `'object'` but falsy,
and booleans, numbers and strings are of other types. -/
def objectLike : BodyConfig → Bool
  | BodyConfig.jarr _ => true
  | BodyConfig.jobj _ => true
  | _ => false

/-- Modelled from the claim's words, for comparison with the code's guard: a
well-formed configuration is a mapping (JSON object) from slot keys to
component references; arrays and primitives are not mappings. -/
def isMappingShaped : BodyConfig → Bool
  | BodyConfig.jobj _ => true
  | _ => false

/-- The configuration the handlers evaluate when the guard passes: an
object's own fields, or, for an array, its elements keyed by their indices
(`Object.values` / `Object.entries` / bracket reads behave this way). -/
def toConfiguration : BodyConfig → Option Configuration
  | BodyConfig.jarr xs => some (xs.enum.map (fun p => (toString p.1, p.2)))
  | BodyConfig.jobj fields => some fields
  | _ => none

/-- The product ids gathered by scanning every slot value (single or array)
and collecting every truthy `id` (lines 269-278 and 617-626). -/
def collectIds (cfg : Configuration) : List ℕ :=
  cfg.foldl (fun acc kv =>
    match kv.2 with
    | SlotVal.falsy => acc
    | SlotVal.single r =>
      match refIdOk r with
      | some n => acc ++ [n]
      | none => acc
    | SlotVal.many rs => acc ++ rs.filterMap (fun it =>
        match it with
        | some r => refIdOk r
        | none => none)) []

/-- The catalog restriction performed by the `WHERE id IN (...)` query that
builds `productDetailsMap`: only collected ids resolve. -/
def restrictCatalog (ids : List ℕ) (catalog : Catalog) : Catalog :=
  fun n => if n ∈ ids then catalog n else none

/-- The HTTP-level outcome of `validateConfiguration`: the 400 rejection of
the input guard, or the 200 payload. -/
inductive ValidateResponse where
  | badRequest
  | ok (result : ValidationResult)
deriving DecidableEq, Repr

/-- `validateConfiguration` (lines 238-361): the input guard, then the rule
loop over the active-rule snapshot and the catalog restricted to the ids
collected from the configuration. -/
def validateConfigurationEndpoint (body : BodyConfig) (rules : List Rule)
    (catalog : Catalog) : ValidateResponse :=
  match toConfiguration body with
  | none => ValidateResponse.badRequest
  | some cfg =>
    ValidateResponse.ok (runRules rules cfg (restrictCatalog (collectIds cfg) catalog))

/-- One `products` row as read by the pricing queries, after `parseFloat`
of the DECIMAL columns (`parseFloat(x) || 0`): the unit price and the
discount percentage. -/
structure PriceRec where
  price : ℚ
  discount_percentage : ℚ
deriving DecidableEq, Repr

/-- A pricing catalog snapshot: product id → price row. -/
abbrev PriceCatalog := ℕ → Option PriceRec

/-- `parseFloat(x.toFixed(2))`: rounding to 2 decimal places, half away
from zero for the nonnegative values that occur here. -/
def round2 (q : ℚ) : ℚ :=
  ((⌊q * 100 + 1 / 2⌋ : ℤ) : ℚ) / 100

/-- The discounted unit price computed for every product row (lines
648-660): the raw price when the discount is not positive, else
`price * (1 - discount / 100)`, then rounded to 2 decimals by
`parseFloat(toFixed(2))`. -/
def discountedPrice (p d : ℚ) : ℚ :=
  round2 (if 0 < d then p * (1 - d / 100) else p)

/-- The `priceMap` entry for one product row. -/
structure PriceInfo where
  original_price : ℚ
  discounted_price : ℚ
  discount_percentage : ℚ
deriving DecidableEq, Repr

/-- Build the `priceMap` entry from a row. -/
def mkPriceInfo (pr : PriceRec) : PriceInfo :=
  { original_price := pr.price,
    discounted_price := discountedPrice pr.price pr.discount_percentage,
    discount_percentage := pr.discount_percentage }

/-- The `priceMap` of `calculatePrice`: the pricing catalog restricted to
the collected ids (the `WHERE id IN (...)` query), with each row mapped to
its `PriceInfo`. -/
def mkPriceMap (ids : List ℕ) (cat : PriceCatalog) : ℕ → Option PriceInfo :=
  fun n => if n ∈ ids then (cat n).map mkPriceInfo else none

/-- One entry of the price `breakdown` array (lines 676-685). -/
structure LineEntry where
  component_key : String
  product_id : ℕ
  product_name : String
  quantity : ℕ
  unit_price : ℚ
  original_price : ℚ
  discount_percentage : ℚ
  total : ℚ
deriving DecidableEq, Repr

/-- `item.name || 'Unknown'`. -/
def displayName (r : Ref) : String :=
  match r.name with
  | some s => if s = "" then "Unknown" else s
  | none => "Unknown"

/-- The breakdown entry for one item of a slot, when the item is truthy,
has a truthy id, and that id is in the price map. -/
def lineFor (pm : ℕ → Option PriceInfo) (key : String) (item : Option Ref) :
    Option LineEntry :=
  match item with
  | none => none
  | some r =>
    match refIdOk r with
    | none => none
    | some n =>
      match pm n with
      | none => none
      | some info =>
        some { component_key := key, product_id := n, product_name := displayName r,
               quantity := 1, unit_price := info.discounted_price,
               original_price := info.original_price,
               discount_percentage := info.discount_percentage,
               total := info.discounted_price }

/-- The breakdown loop of `calculatePrice` (lines 666-688): every slot in
configuration order, every item in slot order, skipping falsy slots and
items that do not price. -/
def priceLines (cfg : Configuration) (pm : ℕ → Option PriceInfo) : List LineEntry :=
  cfg.foldl (fun acc kv =>
    if slotTruthy kv.2 then
      acc ++ (slotItems kv.2).filterMap (lineFor pm kv.1)
    else acc) []

/-- The `data` payload of a successful `calculatePrice` response; the
`subtotal` field is assigned the already-rounded `total`. -/
structure PriceBreakdown where
  subtotal : ℚ
  total : ℚ
  breakdown : List LineEntry
deriving DecidableEq, Repr

/-- The HTTP-level outcome of `calculatePrice`. -/
inductive PriceResponse where
  | badRequest
  | ok (data : PriceBreakdown)
deriving DecidableEq, Repr

/-- `calculatePrice` (lines 602-708): the same input guard as
`validateConfiguration`; an empty id collection short-circuits to a zero
breakdown; otherwise the price map is built over the collected ids, the
breakdown is accumulated, and the subtotal of line totals is rounded once. -/
def calculatePriceEndpoint (body : BodyConfig) (cat : PriceCatalog) : PriceResponse :=
  match toConfiguration body with
  | none => PriceResponse.badRequest
  | some cfg =>
    let ids := collectIds cfg
    if ids.isEmpty then PriceResponse.ok { subtotal := 0, total := 0, breakdown := [] }
    else
      let pm := mkPriceMap ids cat
      let lines := priceLines cfg pm
      let total := round2 ((lines.map LineEntry.total).sum)
      PriceResponse.ok { subtotal := total, total := total, breakdown := lines }

/-- The product ids a request body makes the pricing endpoint read. -/
def bodyProductIds (body : BodyConfig) : List ℕ :=
  match toConfiguration body with
  | some cfg => collectIds cfg
  | none => []

/-- One committed write of the checkout flow (`checkoutBuild`, lines
715-818): the `custom_pc_builds` INSERT, the `cart_items` INSERT, and the
`carts` totals UPDATE. -/
inductive DbWrite where
  | addBuild (buildId userId : ℕ) (price : ℚ)
  | addCartItem (cartId buildId : ℕ)
  | setCartTotals (cartId : ℕ) (subtotal totalAmount : ℚ)
deriving DecidableEq, Repr

/-- The committed database state touched by checkout: saved builds, cart
line items, and each cart's stored subtotal. -/
structure Store where
  builds : List ℕ
  cartItems : List (ℕ × ℕ)
  cartSubtotals : List (ℕ × ℚ)
deriving DecidableEq, Repr

/-- Apply one write to the committed state. -/
def applyWrite (s : Store) : DbWrite → Store
  | DbWrite.addBuild b _ _ => { s with builds := s.builds ++ [b] }
  | DbWrite.addCartItem c b => { s with cartItems := s.cartItems ++ [(c, b)] }
  | DbWrite.setCartTotals c st _ =>
    { s with cartSubtotals := s.cartSubtotals.map (fun p => if p.1 = c then (c, st) else p) }

/-- One statement sent through `pool.query`. -/
inductive PoolStmt where
  | startTx
  | commitTx
  | rollbackTx
  | readStmt
  | write (w : DbWrite)
deriving DecidableEq, Repr

/-- One pooled connection: whether it has an open transaction, and the
writes pending inside it. A write on a connection with no open transaction
autocommits immediately. -/
structure Conn where
  inTx : Bool := false
  pending : List DbWrite := []
deriving DecidableEq, Repr

/-- A two-connection pool and the committed store. Modelled from the mysql2
pool semantics behind `getDb()` (`db.config.js` lines 50-55): `pool.query`
acquires some connection, runs the single statement, and releases the
connection; the caller does not control which connection serves which
statement, so `START TRANSACTION` and the statements that follow it may run
on different connections. -/
structure PoolState where
  connA : Conn := {}
  connB : Conn := {}
  store : Store
deriving DecidableEq, Repr

/-- Run one statement on one connection against the committed store. -/
def execStmt (c : Conn) (store : Store) : PoolStmt → Conn × Store
  | PoolStmt.startTx => ({ inTx := true, pending := [] }, store)
  | PoolStmt.commitTx => ({ inTx := false, pending := [] }, c.pending.foldl applyWrite store)
  | PoolStmt.rollbackTx => ({ inTx := false, pending := [] }, store)
  | PoolStmt.readStmt => (c, store)
  | PoolStmt.write w =>
    if c.inTx then ({ c with pending := c.pending ++ [w] }, store)
    else (c, applyWrite store w)

/-- `pool.query`: the schedule bit picks which pooled connection serves the
statement. -/
def poolQuery (ps : PoolState) (useB : Bool) (stmt : PoolStmt) : PoolState :=
  if useB then
    let r := execStmt ps.connB ps.store stmt
    { ps with connB := r.1, store := r.2 }
  else
    let r := execStmt ps.connA ps.store stmt
    { ps with connA := r.1, store := r.2 }

/-- Run a scheduled statement list through the pool. -/
def runStmts (ps : PoolState) (l : List (Bool × PoolStmt)) : PoolState :=
  l.foldl (fun s bw => poolQuery s bw.1 bw.2) ps

/-- The statement sequence of `checkoutBuild` on the path where the owner
already has a cart: `START TRANSACTION`; INSERT the build; SELECT the cart;
INSERT the cart line item; SELECT the items sum; UPDATE the cart totals;
`COMMIT`. On any error the catch block issues one `ROLLBACK`. -/
def checkoutScript (buildId userId cartId : ℕ) (price : ℚ) : List PoolStmt :=
  [PoolStmt.startTx,
   PoolStmt.write (DbWrite.addBuild buildId userId price),
   PoolStmt.readStmt,
   PoolStmt.write (DbWrite.addCartItem cartId buildId),
   PoolStmt.readStmt,
   PoolStmt.write (DbWrite.setCartTotals cartId price price),
   PoolStmt.commitTx]

/-- The empty catalog snapshot. -/
def emptyCatalog : Catalog := fun _ => none

/-- The empty pricing snapshot. -/
def emptyPriceCatalog : PriceCatalog := fun _ => none

/-- A 500 W power supply (concrete catalog entry). -/
def psuDetC1 : ProductDetails :=
  { specifications := [("wattage", SpecVal.num 500)] }

/-- A 480 W graphics card (concrete catalog entry). -/
def gpuDetC1 : ProductDetails :=
  { specifications := [("tdp", SpecVal.num 480)] }

/-- Concrete catalog: id 1 is the PSU, id 2 the GPU. -/
def catC1 : Catalog :=
  fun n => if n = 1 then some psuDetC1 else if n = 2 then some gpuDetC1 else none

/-- Concrete configuration: one PSU and one GPU. -/
def cfgC1 : Configuration :=
  [("psu", SlotVal.single { id := some 1 }), ("gpu", SlotVal.single { id := some 2 })]

/-- Concrete power-requirement rule. -/
def ruleC1 : Rule :=
  { id := 77, rule_type := "power_requirement", rule_name := "power",
    rule_config := { psu_key := some "psu", power_field := some "power_w" },
    error_message := "psu too small" }

/-- A case whose supported form factors live ONLY under the configured
custom field name, not under the fixed keys the code reads. -/
def caseDetC4 : ProductDetails :=
  { specifications := [("my_ff", SpecVal.list ["ATX"])] }

/-- A motherboard whose form factor (under the configured field name) is
not in the case's configured-field list. -/
def moboDetC4 : ProductDetails :=
  { specifications := [("my_ff", SpecVal.str "Micro-ATX")] }

/-- Concrete catalog for the form-factor counterexample. -/
def catC4 : Catalog :=
  fun n => if n = 1 then some moboDetC4 else if n = 2 then some caseDetC4 else none

/-- Concrete configuration holding the motherboard and the case. -/
def cfgC4 : Configuration :=
  [("motherboard", SlotVal.single { id := some 1 }),
   ("case", SlotVal.single { id := some 2 })]

/-- Concrete form-factor rule with the custom field name `my_ff`. -/
def ruleC4 : Rule :=
  { id := 4, rule_type := "form_factor", rule_name := "ff",
    rule_config := { motherboard_key := some "motherboard", case_key := some "case",
                     form_factor_field := some "my_ff" },
    error_message := "form factor mismatch" }

/-- A case listing its form factors under the fixed key the code reads. -/
def caseDetC4w : ProductDetails :=
  { specifications := [("supported_form_factors", SpecVal.list ["ATX", "Micro-ATX"])] }

/-- A motherboard whose fallback `form_factor` is not supported by the case. -/
def moboDetC4w : ProductDetails :=
  { specifications := [("form_factor", SpecVal.str "E-ATX")] }

/-- Concrete catalog for the amended form-factor check. -/
def catC4w : Catalog :=
  fun n => if n = 1 then some moboDetC4w else if n = 2 then some caseDetC4w else none

/-- Concrete max-quantity rule whose configured maximum is 0. -/
def ruleC5 : Rule :=
  { id := 5, rule_type := "max_quantity", rule_name := "maxq",
    rule_config := { max_quantity := some 0, component_key := some "gpu" },
    error_message := "too many" }

/-- Concrete configuration with a single GPU reference. -/
def cfgC5 : Configuration := [("gpu", SlotVal.single { id := some 9 })]

/-- Concrete max-quantity rule with maximum 2. -/
def ruleC5w : Rule :=
  { id := 55, rule_type := "max_quantity", rule_name := "maxq2",
    rule_config := { max_quantity := some 2, component_key := some "gpu" },
    error_message := "too many" }

/-- Concrete configuration with three GPU references. -/
def cfgC5w : Configuration :=
  [("gpu", SlotVal.many [some { id := some 9 }, some { id := some 10 }, some { id := some 11 }])]

/-- A motherboard whose supported memory types live ONLY under the
configured custom field name, not under the fixed keys the code reads. -/
def moboDetC6 : ProductDetails :=
  { specifications := [("mt", SpecVal.list ["DDR5"])] }

/-- A RAM module whose type (under the configured field name) is absent
from the motherboard's configured-field list. -/
def ramDetC6 : ProductDetails :=
  { specifications := [("mt", SpecVal.str "DDR4")] }

/-- Concrete catalog for the memory-type counterexample. -/
def catC6 : Catalog :=
  fun n => if n = 1 then some moboDetC6 else if n = 2 then some ramDetC6 else none

/-- Concrete configuration holding the motherboard and one RAM module. -/
def cfgC6 : Configuration :=
  [("motherboard", SlotVal.single { id := some 1 }),
   ("ram", SlotVal.many [some { id := some 2 }])]

/-- Concrete memory-type rule with the custom field name `mt`. -/
def ruleC6 : Rule :=
  { id := 6, rule_type := "memory_type", rule_name := "memt",
    rule_config := { ram_key := some "ram", motherboard_key := some "motherboard",
                     memory_type_field := some "mt" },
    error_message := "bad memory" }

/-- A motherboard listing DDR5 under the fixed key the code reads. -/
def moboDetC6w : ProductDetails :=
  { specifications := [("supported_memory_types", SpecVal.list ["DDR5"])] }

/-- A DDR5 RAM module (matches). -/
def ramGoodC6 : ProductDetails :=
  { specifications := [("memory_type", SpecVal.str "DDR5")] }

/-- A DDR4 RAM module (does not match). -/
def ramBadC6 : ProductDetails :=
  { specifications := [("memory_type", SpecVal.str "DDR4")] }

/-- Concrete catalog for the amended memory-type check. -/
def catC6w : Catalog :=
  fun n => if n = 1 then some moboDetC6w else if n = 2 then some ramGoodC6
    else if n = 3 then some ramBadC6 else none

/-- Concrete configuration with one matching and one non-matching RAM item. -/
def cfgC6w : Configuration :=
  [("motherboard", SlotVal.single { id := some 1 }),
   ("ram", SlotVal.many [some { id := some 2 }, some { id := some 3 }])]

/-- A request body whose `configuration` is a JSON array — not a mapping
from slot keys to component references. -/
def arrBody : BodyConfig := BodyConfig.jarr [SlotVal.single { id := some 5 }]

/-- A request body referencing one priced component. -/
def bodyC8 : BodyConfig :=
  BodyConfig.jobj [("cpu", SlotVal.single { id := some 3, name := some "CPU X" })]

/-- First pricing snapshot: only id 3 is priced. -/
def cat1C8 : PriceCatalog :=
  fun n => if n = 3 then some { price := 100, discount_percentage := 10 } else none

/-- Second pricing snapshot: agrees with the first on id 3 and differs
everywhere else. -/
def cat2C8 : PriceCatalog :=
  fun n => if n = 3 then some { price := 100, discount_percentage := 10 }
    else some { price := 999, discount_percentage := 0 }

/-- A rule whose type is none of the seven recognized tags. -/
def bogusRule : Rule :=
  { id := 1, rule_type := "unknown_rule", rule_name := "x",
    rule_config := {}, error_message := "m" }

/-- The committed store before the failing checkout: no saved builds, the
owner's cart (id 7) exists, empty, with subtotal 0. -/
def initStoreC3 : Store :=
  { builds := [], cartItems := [], cartSubtotals := [(7, 0)] }

/-- The pool before the failing checkout: both connections idle. -/
def initPoolC3 : PoolState := { store := initStoreC3 }

/-- A failing checkout execution: the first three statements of
`checkoutBuild` (build id 42, user 9, cart 7, price 1500) run under the
pool schedule A, B, B — `START TRANSACTION` is served by connection A,
the `custom_pc_builds` INSERT by connection B (where, with no open
transaction, it autocommits) — then the `cart_items` INSERT fails and the
catch block's single `ROLLBACK` is served by connection A. -/
def checkoutOrphanRun : PoolState :=
  runStmts initPoolC3
    ((List.zip [false, true, true] ((checkoutScript 42 9 7 1500).take 3)) ++
      [(false, PoolStmt.rollbackTx)])

/-- Helper: a `filterMap` that emits a fixed entry exactly when a test
passes is a replicated list counted by the test. -/
theorem filterMap_ite_const {α β : Type} (p : α → Bool) (c : β) (l : List α) :
    (l.filterMap fun a => if p a then some c else none) =
      List.replicate (l.countP p) c := by
  induction l with
  | nil => rfl
  | cons a t ih =>
    by_cases h : p a = true
    · simp [List.filterMap_cons, List.countP_cons, h, ih, List.replicate_succ]
    · simp [List.filterMap_cons, List.countP_cons, h, ih]

/-- Helper: a slot that resolves to details is a truthy single reference. -/
theorem slotTruthy_of_slotDetails (catalog : Catalog) (v : SlotVal)
    (d : ProductDetails) (h : slotDetails catalog v = some d) :
    slotTruthy v = true := by
  cases v with
  | falsy => simp [slotDetails, singleRefId] at h
  | single r => rfl
  | many rs => simp [slotDetails, singleRefId] at h

/-- Helper: dispatching any rule whose type is not `power_requirement`
leaves the warnings accumulator unchanged. -/
theorem applyRule_snd (cfg : Configuration) (catalog : Catalog)
    (acc : List Violation × List Violation) (rule : Rule)
    (h : rule.rule_type ≠ "power_requirement") :
    (applyRule cfg catalog acc rule).2 = acc.2 := by
  unfold applyRule
  split_ifs <;> simp_all [validateCustomRule]

/-- Claim C1 (confirmed): for every power-requirement rule whose
configuration supplies a PSU slot key and a power-field name, when the PSU
slot holds a resolved component with rated wattage `w` (power-field name,
else `wattage`), and the summed draw over every counted slot other than the
PSU slot — each item read under the power-field name, then `tdp`, then
`power_consumption`, defaulting to 0 — is `t`, the evaluator appends
exactly one hard error iff `w < t`, and otherwise exactly one warning iff
`w < t * 1.2`, the warning carrying the PSU wattage and the ceiling of
`t * 1.2`; it never produces both from the same rule. -/
theorem C1_power_requirement (rule : Rule) (cfg : Configuration)
    (catalog : Catalog) (psuKey pf : String) (psuDetails : ProductDetails)
    (w t : ℚ)
    (hpk : rule.rule_config.psu_key = some psuKey) (hpk1 : psuKey ≠ "")
    (hpf : rule.rule_config.power_field = some pf) (hpf1 : pf ≠ "")
    (hres : slotDetails catalog (cfgGet cfg psuKey) = some psuDetails)
    (hw : psuRatedWattage pf psuDetails = some w)
    (ht : totalDraw pf psuKey (countedKeys rule cfg) cfg catalog = some t) :
    validatePowerRequirement rule cfg catalog =
      if w < t then ([mkViolation rule psuKey], [])
      else if w < t * (1.2 : ℚ) then
        ([], [{ rule_id := rule.id, rule_name := rule.rule_name,
                message := Message.powerWarning (some w) (some ⌈t * (1.2 : ℚ)⌉),
                component_key := psuKey }])
      else ([], []) := by
  have h1 : truthyS (some psuKey) = true := by simpa [truthyS] using hpk1
  have h2 : truthyS (some pf) = true := by simpa [truthyS] using hpf1
  simp only [validatePowerRequirement, hpk, hpf, Option.getD_some, h1, h2,
    Bool.true_and, Bool.and_true, if_true, hres, hw, ht, nanMul, nanCeilZ,
    Option.map_some, jsLt]
  by_cases hlt : w < t
  · simp [hlt]
  · by_cases hlt2 : w < t * (1.2 : ℚ)
    · simp [hlt, hlt2]
    · simp [hlt, hlt2]

/-- Witness for C1 at the spec's own margin example: PSU wattage 500 and
summed draw 480 produce no hard error and exactly the warning carrying
500 W and the rounded-up 576 W. -/
theorem C1_power_requirement_witness :
    validatePowerRequirement ruleC1 cfgC1 catC1 =
      ([], [{ rule_id := 77, rule_name := "power",
              message := Message.powerWarning (some 500) (some 576),
              component_key := "psu" }]) := by
  have ht : totalDraw "power_w" "psu" (countedKeys ruleC1 cfgC1) cfgC1 catC1 = some 480 := by
    simp [totalDraw, countedKeys, ruleC1, cfgC1, catC1, cfgGet, slotTruthy, slotItems,
      itemDraw, itemDetails, refIdOk, readPowerDraw, getSpec, specOr, specTruthy,
      parseFloatSpec, nanAdd, psuDetC1, gpuDetC1, List.foldl_cons, List.foldl_nil,
      List.lookup, Option.getD]
  rw [C1_power_requirement ruleC1 cfgC1 catC1 "psu" "power_w" psuDetC1 500 480
    rfl (by decide) rfl (by decide) (by decide) (by decide) ht]
  norm_num [ruleC1]

/-- Claim C2 (confirmed): for a component with unit price `P` and discount
percentage `D` (0 ≤ D ≤ 100), the discounted price used by the pricing
pipeline (`discountedPrice`, feeding `mkPriceInfo` and the breakdown of
`calculatePriceEndpoint`) equals `round(P * (1 - D/100), 2)`, and when
`D = 0` it equals `P` exactly; the exactness at `D = 0` uses the fact that
catalog prices carry at most two decimal places (`products.price` is
`DECIMAL(10,2)` in the schema), stated as the hypothesis `P = n/100`. -/
theorem C2_discount_arithmetic (p d : ℚ) (hd0 : 0 ≤ d) (hd1 : d ≤ 100)
    (hp : ∃ n : ℤ, p = (n : ℚ) / 100) :
    discountedPrice p d = round2 (p * (1 - d / 100)) ∧
    (d = 0 → discountedPrice p d = p) := by
  constructor
  · by_cases h : 0 < d
    · simp [discountedPrice, h]
    · have hd : d = 0 := le_antisymm (not_lt.mp h) hd0
      subst hd
      norm_num [discountedPrice]
  · rintro rfl
    obtain ⟨n, rfl⟩ := hp
    unfold discountedPrice round2
    rw [if_neg (lt_irrefl 0), div_mul_cancel₀ _ (by norm_num : (100 : ℚ) ≠ 0),
      add_comm, Int.floor_add_int]
    norm_num

/-- Witness for C2: a 999.99-rupee component with no discount prices at
exactly 999.99, and the same theorem instance also fixes the rounding
formula there. -/
theorem C2_discount_arithmetic_witness :
    discountedPrice (99999 / 100) 0 = 99999 / 100 :=
  (C2_discount_arithmetic (99999 / 100) 0 (by norm_num) (by norm_num)
    ⟨99999, by norm_num⟩).2 rfl

/-- Claim C3 (refuted by the code, which contradicts its own
"Transaction-based, atomic operations" intent): `checkoutBuild` issues
`START TRANSACTION`, its INSERTs/UPDATE, and `ROLLBACK`/`COMMIT` through
`pool.query` on the shared mysql2 pool (`getDb()`), and each such call runs
its single statement on whichever pooled connection serves it. In the
modelled failing run (`checkoutOrphanRun`) the transaction is opened on
connection A, the `custom_pc_builds` INSERT autocommits on connection B,
the `cart_items` INSERT then fails, and the catch-block `ROLLBACK` (on A)
undoes nothing: the store ends with the orphaned SavedBuild id 42 and the
cart's line items and aggregate subtotal unchanged — the four-step write is
not atomic. -/
theorem C3_checkout_not_atomic :
    checkoutOrphanRun.store.builds = [42] ∧
    checkoutOrphanRun.store.cartItems = initStoreC3.cartItems ∧
    checkoutOrphanRun.store.cartSubtotals = initStoreC3.cartSubtotals ∧
    initStoreC3.builds = [] ∧
    checkoutOrphanRun.store ≠ initStoreC3 := by
  decide

/-- Claim C4 (refuted as stated): the claim says the case's supported
form-factor list is read under the configured field name with fallback
`form_factors`. Here the configured field `my_ff` holds the non-empty list
`["ATX"]` on the resolved case and the resolved motherboard's value under
`my_ff` is `Micro-ATX`, which is not a member — so the claim requires an
appended error citing the case slot. The evaluator appends nothing, because
it reads the case only under the fixed keys `supported_form_factors` /
`form_factors`, never under the configured field name. -/
theorem C4_counterexample :
    getSpec caseDetC4 "my_ff" = some (SpecVal.list ["ATX"]) ∧
    getSpec moboDetC4 "my_ff" = some (SpecVal.str "Micro-ATX") ∧
    slotDetails catC4 (cfgGet cfgC4 "motherboard") = some moboDetC4 ∧
    slotDetails catC4 (cfgGet cfgC4 "case") = some caseDetC4 ∧
    validateFormFactor ruleC4 cfgC4 catC4 = [] := by
  decide

/-- Claim C4 as amended: for every form-factor rule whose configuration
supplies the motherboard slot key, case slot key and form-factor field
name, when both slot components resolve, the evaluator reads the case's
list under the FIXED keys `supported_form_factors` then `form_factors`
(the configured field name is used only for the motherboard, with fallback
`form_factor`), and appends exactly one error citing the case slot key iff
the motherboard's value is truthy, the case's value has positive length,
and the case value is not an array containing the motherboard's value. -/
theorem C4_form_factor_amended (rule : Rule) (cfg : Configuration)
    (catalog : Catalog) (mbKey ck fff : String)
    (moboDetails caseDetails : ProductDetails)
    (hmk : rule.rule_config.motherboard_key = some mbKey) (hmk1 : mbKey ≠ "")
    (hck : rule.rule_config.case_key = some ck) (hck1 : ck ≠ "")
    (hff : rule.rule_config.form_factor_field = some fff) (hff1 : fff ≠ "")
    (hm : slotDetails catalog (cfgGet cfg mbKey) = some moboDetails)
    (hc : slotDetails catalog (cfgGet cfg ck) = some caseDetails) :
    validateFormFactor rule cfg catalog =
      if specTruthy (moboFormFactorOf fff moboDetails)
          && lengthPos (caseFormFactorsOf caseDetails)
          && !specIncludes (caseFormFactorsOf caseDetails)
              (moboFormFactorOf fff moboDetails) then
        [mkViolation rule ck]
      else [] := by
  have h1 : truthyS (some mbKey) = true := by simpa [truthyS] using hmk1
  have h2 : truthyS (some ck) = true := by simpa [truthyS] using hck1
  have h3 : truthyS (some fff) = true := by simpa [truthyS] using hff1
  simp only [validateFormFactor, hmk, hck, hff, Option.getD_some, h1, h2, h3,
    Bool.true_and, Bool.and_true, if_true, hm, hc]
  cases hA : specTruthy (moboFormFactorOf fff moboDetails) <;>
    cases hB : lengthPos (caseFormFactorsOf caseDetails) <;>
      cases hC : specIncludes (caseFormFactorsOf caseDetails)
          (moboFormFactorOf fff moboDetails) <;>
        simp [hA, hB, hC]

/-- Witness for the amended C4: a case supporting ATX and Micro-ATX under
the fixed key and an E-ATX motherboard produce exactly one error citing the
case slot. -/
theorem C4_form_factor_amended_witness :
    validateFormFactor ruleC4 cfgC4 catC4w = [mkViolation ruleC4 "case"] := by
  rw [C4_form_factor_amended ruleC4 cfgC4 catC4w "motherboard" "case" "my_ff"
    moboDetC4w caseDetC4w rfl (by decide) rfl (by decide) rfl (by decide)
    (by decide) (by decide)]
  decide

/-- Claim C5 (refuted as stated): the claim says a single reference against
a max-quantity rule whose maximum is 0 is a violation (count 1 > 0). Here
the rule supplies the slot key `gpu` and the maximum 0, the configuration
holds a single reference at `gpu`, yet the evaluator appends nothing: the
guard `!max_quantity` treats the falsy maximum 0 as a missing field and
skips the rule entirely. -/
theorem C5_counterexample :
    ruleC5.rule_config.max_quantity = some 0 ∧
    cfgGet cfgC5 "gpu" = SlotVal.single { id := some 9, name := none } ∧
    validateMaxQuantity ruleC5 cfgC5 = [] := by
  decide

/-- Claim C5 as amended: for every max-quantity rule whose configuration
supplies a target slot key and a TRUTHY (nonzero) maximum count, when the
submitted configuration has a truthy value at that slot, the count is the
list's length for an array and 1 otherwise, and exactly one error is
appended iff the count exceeds the maximum; a maximum of 0 is falsy and
disables the rule, so it never produces a violation. -/
theorem C5_max_quantity_amended (rule : Rule) (cfg : Configuration)
    (m : ℚ) (k : String)
    (hm : rule.rule_config.max_quantity = some m) (hm0 : m ≠ 0)
    (hk : rule.rule_config.component_key = some k) (hk1 : k ≠ "") :
    validateMaxQuantity rule cfg =
      if slotTruthy (cfgGet cfg k) && decide (m < (slotCount (cfgGet cfg k) : ℚ)) then
        [mkViolation rule k]
      else [] := by
  have h1 : truthyN (some m) = true := by simpa [truthyN] using hm0
  have h2 : truthyS (some k) = true := by simpa [truthyS] using hk1
  simp only [validateMaxQuantity, hm, hk, Option.getD_some, h1, h2,
    Bool.true_and, Bool.and_true, if_true]

/-- Witness for the amended C5: three GPU references against a maximum of 2
produce exactly one error citing the GPU slot. -/
theorem C5_max_quantity_amended_witness :
    validateMaxQuantity ruleC5w cfgC5w = [mkViolation ruleC5w "gpu"] := by
  rw [C5_max_quantity_amended ruleC5w cfgC5w 2 "gpu" rfl (by norm_num) rfl (by decide)]
  decide

/-- Claim C6 (refuted as stated): the claim says the motherboard's
supported-types list is read under the configured field name with fallback
`memory_types`. Here the configured field `mt` holds the non-empty list
`["DDR5"]` on the resolved motherboard and the RAM item's type under `mt`
is `DDR4`, absent from that list — so the claim requires one appended error
citing the RAM slot. The evaluator appends nothing, because it reads the
motherboard only under the fixed keys `supported_memory_types` /
`memory_types` (both absent here, so the list defaults to `[]` and the
positive-length guard fails). -/
theorem C6_counterexample :
    getSpec moboDetC6 "mt" = some (SpecVal.list ["DDR5"]) ∧
    getSpec ramDetC6 "mt" = some (SpecVal.str "DDR4") ∧
    slotDetails catC6 (cfgGet cfgC6 "motherboard") = some moboDetC6 ∧
    validateMemoryType ruleC6 cfgC6 catC6 = [] := by
  decide

/-- Claim C6 as amended: for every memory-type rule whose configuration
supplies the RAM slot key, motherboard slot key and type-field name, when
the RAM slot is truthy and the motherboard resolves, the evaluator reads
the supported list under the FIXED keys `supported_memory_types` then
`memory_types` (default `[]`), checks every RAM item individually (type
under the configured field, else `memory_type`, else `type`), and appends
one separate error citing the RAM slot key per item whose type is truthy,
with the supported value of positive length and membership failing — i.e.
the result is the bad-item count's worth of copies of that error. -/
theorem C6_memory_type_amended (rule : Rule) (cfg : Configuration)
    (catalog : Catalog) (rk mbKey mtf : String) (moboDetails : ProductDetails)
    (hrk : rule.rule_config.ram_key = some rk) (hrk1 : rk ≠ "")
    (hmk : rule.rule_config.motherboard_key = some mbKey) (hmk1 : mbKey ≠ "")
    (hf : rule.rule_config.memory_type_field = some mtf) (hf1 : mtf ≠ "")
    (hram : slotTruthy (cfgGet cfg rk) = true)
    (hm : slotDetails catalog (cfgGet cfg mbKey) = some moboDetails) :
    validateMemoryType rule cfg catalog =
      List.replicate
        ((slotItems (cfgGet cfg rk)).countP
          (memTypeItemBad mtf (memTypeSupported moboDetails) catalog))
        (mkViolation rule rk) := by
  have h1 : truthyS (some rk) = true := by simpa [truthyS] using hrk1
  have h2 : truthyS (some mbKey) = true := by simpa [truthyS] using hmk1
  have h3 : truthyS (some mtf) = true := by simpa [truthyS] using hf1
  have hmt : slotTruthy (cfgGet cfg mbKey) = true :=
    slotTruthy_of_slotDetails catalog _ _ hm
  simp only [validateMemoryType, hrk, hmk, hf, Option.getD_some, h1, h2, h3,
    Bool.true_and, Bool.and_true, if_true, hram, hmt, hm]
  exact filterMap_ite_const _ _ _

/-- Witness for the amended C6 at the spec's own example: a RAM slot with
one matching (DDR5) and one non-matching (DDR4) item yields exactly one
error citing the RAM slot. -/
theorem C6_memory_type_amended_witness :
    validateMemoryType ruleC6 cfgC6w catC6w = [mkViolation ruleC6 "ram"] := by
  rw [C6_memory_type_amended ruleC6 cfgC6w catC6w "ram" "motherboard" "mt"
    moboDetC6w rfl (by decide) rfl (by decide) rfl (by decide) (by decide)
    (by decide)]
  decide

/-- Claim C7 (refuted as stated): the claim says every configuration that
is not a well-formed mapping from slot keys to component references is
rejected with an input-validation failure, never returning a
ValidationResult or PriceBreakdown. A JSON array is not such a mapping
(`isMappingShaped` is false), yet it passes the guard
`typeof configuration === 'object'` and both endpoints return normal
results for it. -/
theorem C7_counterexample :
    isMappingShaped arrBody = false ∧
    validateConfigurationEndpoint arrBody [] emptyCatalog =
      ValidateResponse.ok { valid := true, errors := [], warnings := [] } ∧
    calculatePriceEndpoint arrBody emptyPriceCatalog =
      PriceResponse.ok { subtotal := 0, total := 0, breakdown := [] } := by
  refine ⟨rfl, by decide, ?_⟩
  simp [calculatePriceEndpoint, arrBody, toConfiguration, collectIds, refIdOk,
    priceLines, lineFor, mkPriceMap, emptyPriceCatalog, slotTruthy, slotItems,
    List.foldl_cons, List.foldl_nil, round2]
  norm_num

/-- Claim C7 as amended: Validate and CalculatePrice reject exactly the
request bodies whose configuration is not object-like in the JavaScript
sense — absent, `null`, or a non-object primitive (boolean, number,
string); a JSON array passes the guard and is evaluated like an object
keyed by indices. The rejection happens before any evaluation (the
`badRequest` outcome carries no result), and every accepted configuration
yields a ValidationResult whose `valid` flag is true exactly when its error
list is empty — a well-formed but incompatible configuration is reported
through `valid=false` with populated errors, never through a failure. -/
theorem C7_input_shape_amended (body : BodyConfig) (rules : List Rule)
    (catalog : Catalog) (pcat : PriceCatalog) :
    (validateConfigurationEndpoint body rules catalog = ValidateResponse.badRequest ↔
      objectLike body = false) ∧
    (calculatePriceEndpoint body pcat = PriceResponse.badRequest ↔
      objectLike body = false) ∧
    (∀ r, validateConfigurationEndpoint body rules catalog = ValidateResponse.ok r →
      (r.valid = true ↔ r.errors = [])) := by
  refine ⟨?_, ?_, ?_⟩
  · cases body <;> simp [validateConfigurationEndpoint, toConfiguration, objectLike]
  · cases body with
    | absent => simp [calculatePriceEndpoint, toConfiguration, objectLike]
    | jnull => simp [calculatePriceEndpoint, toConfiguration, objectLike]
    | jbool b => simp [calculatePriceEndpoint, toConfiguration, objectLike]
    | jnum q => simp [calculatePriceEndpoint, toConfiguration, objectLike]
    | jstr s => simp [calculatePriceEndpoint, toConfiguration, objectLike]
    | jarr xs =>
      simp only [calculatePriceEndpoint, toConfiguration, objectLike]
      exact iff_of_false (by split <;> simp) (by simp)
    | jobj fields =>
      simp only [calculatePriceEndpoint, toConfiguration, objectLike]
      exact iff_of_false (by split <;> simp) (by simp)
  · intro r hr
    cases body with
    | absent => exact absurd hr (by simp [validateConfigurationEndpoint, toConfiguration])
    | jnull => exact absurd hr (by simp [validateConfigurationEndpoint, toConfiguration])
    | jbool b => exact absurd hr (by simp [validateConfigurationEndpoint, toConfiguration])
    | jnum q => exact absurd hr (by simp [validateConfigurationEndpoint, toConfiguration])
    | jstr s => exact absurd hr (by simp [validateConfigurationEndpoint, toConfiguration])
    | jarr xs =>
      simp only [validateConfigurationEndpoint, toConfiguration,
        ValidateResponse.ok.injEq] at hr
      subst hr
      simp [runRules, List.isEmpty_iff]
    | jobj fields =>
      simp only [validateConfigurationEndpoint, toConfiguration,
        ValidateResponse.ok.injEq] at hr
      subst hr
      simp [runRules, List.isEmpty_iff]

/-- Witness for the amended C7: a `null` configuration is rejected by both
endpoints. -/
theorem C7_input_shape_amended_witness :
    validateConfigurationEndpoint BodyConfig.jnull [] emptyCatalog =
      ValidateResponse.badRequest ∧
    calculatePriceEndpoint BodyConfig.jnull emptyPriceCatalog =
      PriceResponse.badRequest := by
  have h := C7_input_shape_amended BodyConfig.jnull [] emptyCatalog emptyPriceCatalog
  exact ⟨h.1.mpr rfl, h.2.1.mpr rfl⟩

/-- Claim C8 (confirmed): CalculatePrice is deterministic — its output is a
function of the submitted configuration and of the pricing snapshot's rows
at the ids the configuration references, so two runs against the same
snapshot (or any snapshots agreeing on those ids) produce identical
PriceBreakdown payloads: same subtotal, same total, same line entries in
the same order. -/
theorem C8_calculate_price_deterministic (body : BodyConfig)
    (cat1 cat2 : PriceCatalog)
    (h : ∀ i ∈ bodyProductIds body, cat1 i = cat2 i) :
    calculatePriceEndpoint body cat1 = calculatePriceEndpoint body cat2 := by
  unfold calculatePriceEndpoint
  cases hb : toConfiguration body with
  | none => rfl
  | some cfg =>
    have hpm : mkPriceMap (collectIds cfg) cat1 = mkPriceMap (collectIds cfg) cat2 := by
      funext n
      unfold mkPriceMap
      by_cases hn : n ∈ collectIds cfg
      · rw [if_pos hn, if_pos hn, h n (by simpa [bodyProductIds, hb] using hn)]
      · rw [if_neg hn, if_neg hn]
    simp only [hpm]

/-- Witness for C8: two extensionally different snapshots that agree on the
one referenced id give identical breakdowns. -/
theorem C8_calculate_price_deterministic_witness :
    calculatePriceEndpoint bodyC8 cat1C8 = calculatePriceEndpoint bodyC8 cat2C8 := by
  apply C8_calculate_price_deterministic
  intro i hi
  have e : bodyProductIds bodyC8 = [3] := by decide
  rw [e] at hi
  obtain rfl := List.mem_singleton.mp hi
  rfl

/-- Claim C9 (confirmed): dispatching any active rule whose type is not one
of the seven recognized tags contributes nothing — the error and warning
accumulators after the dispatch equal the accumulators before, for every
configuration and catalog snapshot. -/
theorem C9_unknown_rule_type_noop (cfg : Configuration) (catalog : Catalog)
    (acc : List Violation × List Violation) (rule : Rule)
    (h : rule.rule_type ∉ ["max_quantity", "socket_compatibility", "form_factor",
      "power_requirement", "memory_type", "storage_interface", "custom"]) :
    applyRule cfg catalog acc rule = acc := by
  simp only [List.mem_cons, List.not_mem_nil, or_false, not_or] at h
  obtain ⟨h1, h2, h3, h4, h5, h6, h7⟩ := h
  simp [applyRule, h1, h2, h3, h4, h5, h6, h7]

/-- Witness for C9: a rule of type `unknown_rule` leaves empty accumulators
empty. -/
theorem C9_unknown_rule_type_noop_witness :
    applyRule [] emptyCatalog ([], []) bogusRule = ([], []) :=
  C9_unknown_rule_type_noop [] emptyCatalog ([], []) bogusRule (by decide)

/-- Claim C10 (confirmed): only power-requirement rules ever produce
warnings — for every configuration, catalog snapshot, and rule set with no
rule of type `power_requirement`, the returned warnings list is empty
(every other recognized rule type, including the no-op `custom`, appends
only to the error list or to nothing, and unrecognized types append
nothing). -/
theorem C10_warnings_only_power (rules : List Rule) (cfg : Configuration)
    (catalog : Catalog)
    (h : ∀ r ∈ rules, r.rule_type ≠ "power_requirement") :
    (runRules rules cfg catalog).warnings = [] := by
  have key : ∀ (l : List Rule) (acc : List Violation × List Violation),
      (∀ r ∈ l, r.rule_type ≠ "power_requirement") →
      (List.foldl (applyRule cfg catalog) acc l).2 = acc.2 := by
    intro l
    induction l with
    | nil => intro acc _; rfl
    | cons a t ih =>
      intro acc hl
      rw [List.foldl_cons, ih _ (fun r hr => hl r (List.mem_cons_of_mem a hr)),
        applyRule_snd cfg catalog acc a (hl a (List.mem_cons_self a t))]
  simpa [runRules] using key rules ([], []) h

/-- Witness for C10: a rule set with a max-quantity and a memory-type rule
produces no warnings. -/
theorem C10_warnings_only_power_witness :
    (runRules [ruleC5, ruleC6] cfgC5 emptyCatalog).warnings = [] :=
  C10_warnings_only_power [ruleC5, ruleC6] cfgC5 emptyCatalog (by decide)

end PCBuilder
